import Mathlib

/-!
Verification of the numeric projection core of the 30by47 dashboard
(`utils.py`): the required compound growth rate, population projection under
a piecewise growth-rate schedule, the evidence-based median-age
extrapolation, the least-squares sector trend projection, and the country
sector-share normalization.  Python floats are modelled as real numbers,
calendar years as integers, and fallible computations return `Option`.
-/

/-- Embedding of `calculate_required_growth(current, target, time)`
(utils.py lines 199-203): when `current > 0 and target > 0 and time > 0`
holds, the function returns
`100 * (10 ** (math.log10(target / current) / time) - 1)`; otherwise it
falls through and returns `None`.  As a total Lean function it can never
raise. -/
noncomputable def calculate_required_growth (current target time : ℝ) : Option ℝ :=
  if 0 < current ∧ 0 < target ∧ 0 < time then
    some (100 * ((10 : ℝ) ^ (Real.logb 10 (target / current) / time) - 1))
  else
    none

/-- Embedding of the nested `get_growth_rate(year)` helper of
`project_population` (utils.py lines 153-161): 1.0% up to 2025, 0.8% up to
2030, 0.5% up to 2040 and 0.3% beyond. -/
noncomputable def get_growth_rate (year : ℤ) : ℝ :=
  if year ≤ 2025 then 0.010
  else if year ≤ 2030 then 0.008
  else if year ≤ 2040 then 0.005
  else 0.003

/-- The `for y in range(base_year + 1, target_year + 1)` loop of
`project_population` (utils.py lines 165-166), written as a recursion on
the number of remaining iterations: each step multiplies the running
population by `1 + get_growth_rate(y)` and moves to the next year `y + 1`. -/
noncomputable def project_population_loop (pop : ℝ) (y : ℤ) : ℕ → ℝ
  | 0 => pop
  | n + 1 => project_population_loop (pop * (1 + get_growth_rate y)) (y + 1) n

/-- Embedding of `project_population(base_pop, base_year, target_year)`
(utils.py lines 151-167): the loop runs over the years
`base_year + 1, ..., target_year`; Python's `range` is empty when
`target_year ≤ base_year`, which `(target_year - base_year).toNat`
iterations reproduce exactly. -/
noncomputable def project_population (base_pop : ℝ) (base_year target_year : ℤ) : ℝ :=
  project_population_loop base_pop (base_year + 1) (target_year - base_year).toNat

/-- Modelled from the spec's words (for the refinement half of claim C3):
the default schedule "rate = 1.0% for years ≤ 2025, 0.8% for years ≤ 2030,
0.5% for years ≤ 2040, 0.3% thereafter". -/
noncomputable def spec_growth_schedule (year : ℤ) : ℝ :=
  if year ≤ 2025 then 0.010
  else if year ≤ 2030 then 0.008
  else if year ≤ 2040 then 0.005
  else 0.003

/-- Modelled from the spec's words (for the refinement half of claim C3):
the year-by-year compounding recurrence `pop_y = pop_{y-1} * (1 + rate(y))`
applied for `n` years starting at `base_year + 1`. -/
noncomputable def spec_compound_population (base_pop : ℝ) (base_year : ℤ) : ℕ → ℝ
  | 0 => base_pop
  | n + 1 =>
      spec_compound_population base_pop base_year n
        * (1 + spec_growth_schedule (base_year + (n : ℤ) + 1))

/-- Python's `round(x, 1)`: round to one decimal place. -/
noncomputable def round1 (x : ℝ) : ℝ := ((round (x * 10) : ℤ) : ℝ) / 10

/-- Embedding of `project_median_age_evidence_based(current_age, base_year,
target_year)` (utils.py lines 170-196), with the historical series passed
explicitly (the Python code binds it from `fetch_historical_median_age()`,
an I/O fetch outside the numeric core).  With at least two points it uses
the secant slope between the first and the last point, guarded to the
default 0.3 when the year span is not positive; with fewer points it uses
the conservative 0.3 years-per-year fallback.  The result is rounded to
one decimal place.  In the first branch the list is nonempty, so the
`(0, 0)` defaults of `headD`/`getLastD` are never used. -/
noncomputable def project_median_age_evidence_based (current_age : ℝ)
    (base_year target_year : ℤ) (historical : List (ℤ × ℝ)) : ℝ :=
  if 2 ≤ historical.length then
    let firstP := historical.headD (0, 0)
    let lastP := historical.getLastD (0, 0)
    let total_years : ℤ := lastP.1 - firstP.1
    let annual_increase : ℝ :=
      if 0 < total_years then (lastP.2 - firstP.2) / ((total_years : ℤ) : ℝ) else 0.3
    round1 (current_age + annual_increase * ((target_year - base_year : ℤ) : ℝ))
  else
    round1 (current_age + ((target_year - base_year : ℤ) : ℝ) * 0.3)

/-- The per-sector record stored by `fetch_sector_growth_projections`
(utils.py lines 288-295); `years_analyzed` keeps the (first, last) year
pair that the Python code renders as the string `"first-last"`. -/
structure ProjectionResult where
  current_value : ℝ
  projected_value : ℝ
  annual_growth_rate : ℝ
  trend_slope : ℝ
  data_points : ℕ
  years_analyzed : ℤ × ℤ

/-- Embedding of the per-series trend computation of
`fetch_sector_growth_projections` (utils.py lines 256-295), applied to one
already-fetched historical series (the HTTP loop around it is outside the
numeric core).  With fewer than 3 points the sector is skipped with an
"insufficient data" message, i.e. no result; otherwise the series is
sorted by year, an ordinary least-squares line is fitted from the two-pass
sums and extrapolated to `target_year`, `current_value` is the last (most
recent) observed value, and the implied compound annual rate is derived
when `target_year` lies beyond the last observed year.  The whole body
runs inside `try`; a `ZeroDivisionError` is caught at utils.py line 303
and the sector is dropped.  That exception can arise at exactly two
places, both modelled here as `none`: the slope division when
`n * Σx² - (Σx)² = 0` (all years equal), and the rate division
`projected_value / current_value` when `current_value = 0` while
`years_diff > 0` selects the division branch.  In the `3 ≤ length` branch
the sorted list is nonempty, so the defaults of `headD`/`getLastD` are
never used. -/
noncomputable def sector_trend_project (historical : List (ℤ × ℝ))
    (target_year : ℤ) : Option ProjectionResult :=
  if 3 ≤ historical.length then
    let sorted := historical.mergeSort fun a b => decide (a.1 ≤ b.1)
    let years : List ℤ := sorted.map fun p => p.1
    let values : List ℝ := sorted.map fun p => p.2
    let n : ℝ := (years.length : ℝ)
    let sum_x : ℝ := (sorted.map fun p => ((p.1 : ℤ) : ℝ)).sum
    let sum_y : ℝ := values.sum
    let sum_xy : ℝ := (sorted.map fun p => ((p.1 : ℤ) : ℝ) * p.2).sum
    let sum_x2 : ℝ := (sorted.map fun p => ((p.1 : ℤ) : ℝ) * ((p.1 : ℤ) : ℝ)).sum
    if n * sum_x2 - sum_x * sum_x = 0 then
      none
    else
      let slope : ℝ := (n * sum_xy - sum_x * sum_y) / (n * sum_x2 - sum_x * sum_x)
      let intercept : ℝ := (sum_y - slope * sum_x) / n
      let projected_value : ℝ := slope * (target_year : ℝ) + intercept
      let current_value : ℝ := values.getLastD 0
      let years_diff : ℤ := target_year - years.getLastD 0
      if 0 < years_diff ∧ current_value = 0 then
        none
      else
        let annual_growth : ℝ :=
          if 0 < years_diff then
            ((projected_value / current_value) ^ ((1 : ℝ) / ((years_diff : ℤ) : ℝ)) - 1) * 100
          else 0
        some ⟨current_value, projected_value, annual_growth, slope,
          historical.length, (years.headD 0, years.getLastD 0)⟩
  else
    none

/-- The spec's closed-form OLS slope
`(n * Σxy - Σx * Σy) / (n * Σx² - (Σx)²)` over a (year, value) series. -/
noncomputable def ols_slope (l : List (ℤ × ℝ)) : ℝ :=
  ((l.length : ℝ) * (l.map fun p => (p.1 : ℝ) * p.2).sum
      - (l.map fun p => ((p.1 : ℝ))).sum * (l.map fun p => p.2).sum)
    / ((l.length : ℝ) * (l.map fun p => (p.1 : ℝ) * (p.1 : ℝ)).sum
      - (l.map fun p => ((p.1 : ℝ))).sum * (l.map fun p => ((p.1 : ℝ))).sum)

/-- The spec's closed-form OLS intercept `(Σy - slope * Σx) / n` over a
(year, value) series. -/
noncomputable def ols_intercept (l : List (ℤ × ℝ)) : ℝ :=
  ((l.map fun p => p.2).sum - ols_slope l * (l.map fun p => ((p.1 : ℝ))).sum)
    / (l.length : ℝ)

/-- The OLS slope denominator `n * Σx² - (Σx)²` of a sample, used to show
the code's slope division is safe on a strictly sorted series. -/
noncomputable def sq_dev (xs : List ℝ) : ℝ :=
  (xs.length : ℝ) * (xs.map fun x => x * x).sum - xs.sum * xs.sum

/-- Claim C1: `calculate_required_growth` returns the closed-form rate
`100 * (10 ^ (log10(target / current) / time) - 1)` whenever `current`,
`target` and `time` are all positive, and the sentinel `none` whenever any
precondition fails — in particular at `current = 0`, `target = 0` and
`time = 0`.  Totality of the Lean function reflects that the Python code
raises no exception on any input. -/
theorem calculate_required_growth_spec (current target time : ℝ) :
    (0 < current → 0 < target → 0 < time →
      calculate_required_growth current target time =
        some (100 * ((10 : ℝ) ^ (Real.logb 10 (target / current) / time) - 1))) ∧
    (¬(0 < current ∧ 0 < target ∧ 0 < time) →
      calculate_required_growth current target time = none) ∧
    calculate_required_growth 0 target time = none ∧
    calculate_required_growth current 0 time = none ∧
    calculate_required_growth current target 0 = none := by
  unfold calculate_required_growth
  refine ⟨fun h1 h2 h3 => if_pos ⟨h1, h2, h3⟩, fun h => if_neg h, ?_, ?_, ?_⟩ <;>
    · rw [if_neg]
      simp only [lt_irrefl, false_and, and_false, not_false_eq_true]

/-- Witness for claim C1 at `current = 100`, `target = 1000`,
`time = 10`. -/
theorem calculate_required_growth_spec_witness :
    calculate_required_growth 100 1000 10 =
      some (100 * ((10 : ℝ) ^ (Real.logb 10 ((1000 : ℝ) / 100) / 10) - 1)) :=
  (calculate_required_growth_spec 100 1000 10).1 (by norm_num) (by norm_num) (by norm_num)

/-- Claim C2: the computed rate round-trips — compounding `current` at the
returned rate for `time` periods recovers `target`; moreover the rate is
`0` whenever current already equals the target (here at 100) and `100` for
doubling from 100 to 200 in one year. -/
theorem calculate_required_growth_round_trip (current target time r : ℝ) :
    (0 < current → 0 < target → 0 < time →
      calculate_required_growth current target time = some r →
      current * (1 + r / 100) ^ time = target) ∧
    (0 < time → calculate_required_growth 100 100 time = some 0) ∧
    calculate_required_growth 100 200 1 = some 100 := by
  refine ⟨fun hc ht hτ heq => ?_, fun hτ => ?_, ?_⟩
  · unfold calculate_required_growth at heq
    rw [if_pos ⟨hc, ht, hτ⟩, Option.some.injEq] at heq
    have h1 : 1 + r / 100 = (10 : ℝ) ^ (Real.logb 10 (target / current) / time) := by
      rw [← heq]; ring
    rw [h1, ← Real.rpow_mul (by norm_num : (0 : ℝ) ≤ 10),
      div_mul_cancel₀ _ (ne_of_gt hτ),
      Real.rpow_logb (by norm_num) (by norm_num) (div_pos ht hc),
      mul_div_cancel₀ _ (ne_of_gt hc)]
  · unfold calculate_required_growth
    rw [if_pos ⟨by norm_num, by norm_num, hτ⟩]
    norm_num [Real.logb_one]
  · unfold calculate_required_growth
    rw [if_pos ⟨by norm_num, by norm_num, by norm_num⟩]
    have h2 : (10 : ℝ) ^ (Real.logb 10 2) = 2 :=
      Real.rpow_logb (by norm_num) (by norm_num) (by norm_num)
    norm_num [h2]

/-- Witness for claim C2: compounding 100 at the rate returned for
doubling in one year (100%) indeed yields 200. -/
theorem calculate_required_growth_round_trip_witness :
    (100 : ℝ) * (1 + 100 / 100) ^ (1 : ℝ) = 200 :=
  (calculate_required_growth_round_trip 100 200 1 100).1
    (by norm_num) (by norm_num) (by norm_num)
    (calculate_required_growth_round_trip 100 200 1 100).2.2

/-- One unrolling of the population loop taken from the far end: running
`n + 1` iterations starting at year `y` is running `n` iterations and then
applying the year `y + n` factor. -/
theorem project_population_loop_succ (pop : ℝ) (y : ℤ) (n : ℕ) :
    project_population_loop pop y (n + 1) =
      project_population_loop pop y n * (1 + get_growth_rate (y + (n : ℤ))) := by
  induction n generalizing pop y with
  | zero => simp [project_population_loop]
  | succ n ih =>
      have h1 : project_population_loop pop y (n + 1 + 1) =
          project_population_loop (pop * (1 + get_growth_rate y)) (y + 1) (n + 1) := rfl
      have h2 : project_population_loop pop y (n + 1) =
          project_population_loop (pop * (1 + get_growth_rate y)) (y + 1) n := rfl
      rw [h1, ih, h2]
      congr 3
      push_cast
      ring

/-- The source loop starting at `base_year + 1` computes exactly the spec's
compounding recurrence. -/
theorem project_population_loop_eq_spec (p : ℝ) (b : ℤ) (n : ℕ) :
    project_population_loop p (b + 1) n = spec_compound_population p b n := by
  induction n with
  | zero => rfl
  | succ n ih =>
      rw [project_population_loop_succ, ih]
      show _ = spec_compound_population p b n
          * (1 + spec_growth_schedule (b + (n : ℤ) + 1))
      congr 2
      · show get_growth_rate (b + 1 + (n : ℤ)) = spec_growth_schedule (b + (n : ℤ) + 1)
        have harg : b + 1 + (n : ℤ) = b + (n : ℤ) + 1 := by ring
        rw [harg]
        rfl

/-- Claim C3: for `target_year > base_year`, `project_population` equals
the spec's year-by-year compounding `pop_y = pop_{y-1} * (1 + rate(y))`
over the `target_year - base_year` years following `base_year`, with the
banded schedule; in particular `project_population 1000 2020 2022` is
`1000 * 1.01 ^ 2 = 1020.1`. -/
theorem project_population_compounds (p : ℝ) (b t : ℤ) (_h : b < t) :
    project_population p b t = spec_compound_population p b (t - b).toNat ∧
    project_population 1000 2020 2022 = 1020.1 := by
  constructor
  · exact project_population_loop_eq_spec p b (t - b).toNat
  · show project_population_loop 1000 (2020 + 1) ((2022 - 2020 : ℤ)).toNat = 1020.1
    norm_num [project_population_loop, get_growth_rate]

/-- Witness for claim C3 at `base_pop = 1000`, `base_year = 2020`,
`target_year = 2022`. -/
theorem project_population_compounds_witness :
    project_population 1000 2020 2022 = spec_compound_population 1000 2020 2 ∧
    project_population 1000 2020 2022 = 1020.1 :=
  project_population_compounds 1000 2020 2022 (by norm_num)

/-- Claim C4 counterexample: at `target_year = base_year = 2020` the code
performs no validation and silently returns the base population, so the
claimed explicit "invalid range" failure does not happen. -/
theorem project_population_no_validation_counterexample :
    project_population 1000 2020 2020 = 1000 := by
  show project_population_loop 1000 (2020 + 1) ((2020 - 2020 : ℤ)).toNat = 1000
  norm_num [project_population_loop]

/-- Claim C4 amended: when `target_year ≤ base_year`, `project_population`
does not validate the range or fail; the loop body is never entered and the
base population is returned unchanged. -/
theorem project_population_silent_on_invalid_range (p : ℝ) (b t : ℤ) (h : t ≤ b) :
    project_population p b t = p := by
  unfold project_population
  have h0 : (t - b).toNat = 0 := by omega
  rw [h0]
  rfl

/-- Witness for the amended claim C4 at `base_year = 2025`,
`target_year = 2024`. -/
theorem project_population_silent_on_invalid_range_witness :
    project_population 42 2025 2024 = 42 :=
  project_population_silent_on_invalid_range 42 2025 2024 (by norm_num)

/-- Claim C10: for every `target_year ≤ base_year` the compounding loop of
`project_population` runs zero iterations (`(t - b).toNat = 0` matches
Python's empty `range`) and the base population is returned with no
error. -/
theorem project_population_empty_range (p : ℝ) (b t : ℤ) (h : t ≤ b) :
    project_population p b t = p ∧ (t - b).toNat = 0 := by
  have h0 : (t - b).toNat = 0 := by omega
  refine ⟨?_, h0⟩
  unfold project_population
  rw [h0]
  rfl

/-- Witness for claim C10 with `target_year` strictly below `base_year`. -/
theorem project_population_empty_range_witness :
    project_population 500 2030 2020 = 500 ∧ ((2020 : ℤ) - 2030).toNat = 0 :=
  project_population_empty_range 500 2030 2020 (by norm_num)

/-- Claim C9: with at least two historical points the median-age projector
uses only the first and the last point, taking
`annual_increase = (last.value - first.value) / (last.year - first.year)`,
falls back to the fixed delta `0.3` when `last.year = first.year` or when
the series has fewer than two points, returns
`current_age + annual_increase * (target_year - base_year)` rounded to one
decimal, and hence maps a zero horizon from 28.7 back to 28.7 for every
series. -/
theorem project_median_age_first_last_secant (c : ℝ) (b t : ℤ) (p₀ lastP : ℤ × ℝ)
    (l : List (ℤ × ℝ)) (hlen : 2 ≤ l.length)
    (hfirst : l.head? = some p₀) (hlast : l.getLast? = some lastP) :
    (p₀.1 < lastP.1 →
      project_median_age_evidence_based c b t l =
        round1 (c + (lastP.2 - p₀.2) / ((lastP.1 : ℝ) - (p₀.1 : ℝ)) * ((t - b : ℤ) : ℝ))) ∧
    (lastP.1 = p₀.1 →
      project_median_age_evidence_based c b t l =
        round1 (c + 0.3 * ((t - b : ℤ) : ℝ))) ∧
    (∀ l' : List (ℤ × ℝ), l'.length < 2 →
      project_median_age_evidence_based c b t l' =
        round1 (c + ((t - b : ℤ) : ℝ) * 0.3)) ∧
    (∀ l' : List (ℤ × ℝ),
      project_median_age_evidence_based 28.7 2023 2023 l' = 28.7) := by
  have hbody : project_median_age_evidence_based c b t l =
      round1 (c + (if 0 < lastP.1 - p₀.1 then
        (lastP.2 - p₀.2) / ((lastP.1 - p₀.1 : ℤ) : ℝ) else 0.3) * ((t - b : ℤ) : ℝ)) := by
    unfold project_median_age_evidence_based
    rw [if_pos hlen]
    simp only [List.headD_eq_head?, List.getLastD_eq_getLast?, hfirst, hlast, Option.getD_some]
  refine ⟨fun hlt => ?_, fun heq => ?_, fun l' hl' => ?_, fun l' => ?_⟩
  · rw [hbody, if_pos (by omega)]
    congr 1
    push_cast
    ring
  · rw [hbody, if_neg (by omega)]
  · unfold project_median_age_evidence_based
    rw [if_neg (by omega)]
  · by_cases h2 : 2 ≤ l'.length
    · unfold project_median_age_evidence_based
      rw [if_pos h2]
      simp only [show ((2023 - 2023 : ℤ) : ℝ) = 0 by norm_num, mul_zero, add_zero]
      norm_num [round1]
    · unfold project_median_age_evidence_based
      rw [if_neg h2]
      simp only [show ((2023 - 2023 : ℤ) : ℝ) = 0 by norm_num, zero_mul, add_zero]
      norm_num [round1]

/-- Witness for claim C9 on the two oldest points of the hard-coded
fallback series, projecting from 2000 to 2010. -/
theorem project_median_age_first_last_secant_witness :
    project_median_age_evidence_based 20 2000 2010 [((1960 : ℤ), (19.8 : ℝ)), (2023, 28.7)] =
      round1 (20 + ((28.7 : ℝ) - 19.8) / (((2023 : ℤ) : ℝ) - ((1960 : ℤ) : ℝ))
        * ((2010 - 2000 : ℤ) : ℝ)) :=
  (project_median_age_first_last_secant 20 2000 2010 (1960, 19.8) (2023, 28.7)
    [((1960 : ℤ), (19.8 : ℝ)), (2023, 28.7)] (by norm_num)
    (by rfl) (by rfl)).1 (by norm_num)

/-- Expanding a sum of squared deviations from a constant. -/
theorem sum_map_sub_sq (a : ℝ) (xs : List ℝ) :
    (xs.map fun x => (a - x) * (a - x)).sum
      = (xs.length : ℝ) * (a * a) - 2 * a * xs.sum + (xs.map fun x => x * x).sum := by
  induction xs with
  | nil => simp
  | cons b xs ih =>
      simp only [List.map_cons, List.sum_cons, List.length_cons, ih]
      push_cast
      ring

/-- Recurrence for the OLS denominator: prepending a point adds its squared
deviations from the remaining points. -/
theorem sq_dev_cons (a : ℝ) (xs : List ℝ) :
    sq_dev (a :: xs) = (xs.map fun x => (a - x) * (a - x)).sum + sq_dev xs := by
  simp only [sq_dev, List.map_cons, List.sum_cons, List.length_cons, sum_map_sub_sq]
  push_cast
  ring

/-- The OLS denominator is never negative. -/
theorem sq_dev_nonneg (xs : List ℝ) : 0 ≤ sq_dev xs := by
  induction xs with
  | nil => simp [sq_dev]
  | cons a xs ih =>
      rw [sq_dev_cons]
      have h1 : 0 ≤ (xs.map fun x => (a - x) * (a - x)).sum := by
        apply List.sum_nonneg
        intro y hy
        obtain ⟨x, _, rfl⟩ := List.mem_map.mp hy
        exact mul_self_nonneg _
      linarith

/-- The OLS denominator is positive as soon as two sample points differ. -/
theorem sq_dev_pos (a b : ℝ) (xs : List ℝ) (hab : a ≠ b) :
    0 < sq_dev (a :: b :: xs) := by
  rw [sq_dev_cons]
  have h2 : 0 ≤ sq_dev (b :: xs) := sq_dev_nonneg _
  have h3 : 0 ≤ (xs.map fun x => (a - x) * (a - x)).sum := by
    apply List.sum_nonneg
    intro y hy
    obtain ⟨x, _, rfl⟩ := List.mem_map.mp hy
    exact mul_self_nonneg _
  have h4 : 0 < (a - b) * (a - b) := mul_self_pos.mpr (sub_ne_zero.mpr hab)
  simp only [List.map_cons, List.sum_cons]
  linarith

/-- On a strictly year-sorted series with at least two points the slope
denominator of `sector_trend_project` is positive, so the Python slope
division cannot raise. -/
theorem ols_denom_pos (l : List (ℤ × ℝ))
    (hsorted : l.Pairwise fun p q => p.1 < q.1) (hlen : 2 ≤ l.length) :
    0 < (l.length : ℝ) * (l.map fun p => ((p.1 : ℤ) : ℝ) * ((p.1 : ℤ) : ℝ)).sum
      - (l.map fun p => ((p.1 : ℤ) : ℝ)).sum * (l.map fun p => ((p.1 : ℤ) : ℝ)).sum := by
  cases l with
  | nil => norm_num at hlen
  | cons p₀ l₁ =>
      cases l₁ with
      | nil => norm_num at hlen
      | cons p₁ rest =>
          have hab : ((p₀.1 : ℤ) : ℝ) ≠ ((p₁.1 : ℤ) : ℝ) := by
            have h01 : p₀.1 < p₁.1 :=
              (List.pairwise_cons.mp hsorted).1 p₁ (List.mem_cons_self _ _)
            exact_mod_cast ne_of_lt h01
          have hpos : 0 < sq_dev ((p₀ :: p₁ :: rest).map fun p => ((p.1 : ℤ) : ℝ)) := by
            simp only [List.map_cons]
            exact sq_dev_pos _ _ _ hab
          have key : sq_dev ((p₀ :: p₁ :: rest).map fun p => ((p.1 : ℤ) : ℝ))
              = ((p₀ :: p₁ :: rest).length : ℝ)
                  * ((p₀ :: p₁ :: rest).map fun p => ((p.1 : ℤ) : ℝ) * ((p.1 : ℤ) : ℝ)).sum
                - ((p₀ :: p₁ :: rest).map fun p => ((p.1 : ℤ) : ℝ)).sum
                  * ((p₀ :: p₁ :: rest).map fun p => ((p.1 : ℤ) : ℝ)).sum := by
            simp [sq_dev, List.map_map, Function.comp_def, List.length_map]
          rw [key] at hpos
          exact hpos

/-- On a series already strictly sorted by year, and outside the
degenerate rate case (`current_value = 0` with `target_year` past the last
year, where the program raises and drops the sector),
`sector_trend_project` computes exactly the least-squares record, with
sums taken over the series itself (sorting is the identity there and the
slope denominator is nonzero). -/
theorem sector_trend_project_of_sorted (l : List (ℤ × ℝ)) (t : ℤ)
    (hsorted : l.Pairwise fun p q => p.1 < q.1) (hlen : 3 ≤ l.length)
    (hsafe : ¬(0 < t - (l.map fun p => p.1).getLastD 0
        ∧ (l.map fun p => p.2).getLastD 0 = 0)) :
    sector_trend_project l t = some
      { current_value := (l.map fun p => p.2).getLastD 0
        projected_value := ols_slope l * (t : ℝ) + ols_intercept l
        annual_growth_rate :=
          if 0 < t - (l.map fun p => p.1).getLastD 0 then
            (((ols_slope l * (t : ℝ) + ols_intercept l)
                / (l.map fun p => p.2).getLastD 0)
              ^ ((1 : ℝ) / ((t - (l.map fun p => p.1).getLastD 0 : ℤ) : ℝ)) - 1) * 100
          else 0
        trend_slope := ols_slope l
        data_points := l.length
        years_analyzed := ((l.map fun p => p.1).headD 0, (l.map fun p => p.1).getLastD 0) } := by
  have hle : l.Pairwise fun a b => (decide (a.1 ≤ b.1)) = true :=
    hsorted.imp fun h => decide_eq_true (le_of_lt h)
  have hdenom := ne_of_gt (ols_denom_pos l hsorted (by omega))
  unfold sector_trend_project
  rw [if_pos hlen, List.mergeSort_of_sorted hle]
  simp only [List.length_map]
  rw [if_neg hdenom, if_neg hsafe]
  simp only [ols_slope, ols_intercept, List.length_map, List.map_map, Function.comp]

/-- In a series strictly sorted by year, every year is bounded by the year
of the last point. -/
theorem le_getLast_of_pairwise (l : List (ℤ × ℝ)) (lastP : ℤ × ℝ)
    (hs : l.Pairwise fun p q => p.1 < q.1) (hl : l.getLast? = some lastP) :
    ∀ p ∈ l, p.1 ≤ lastP.1 := by
  induction l with
  | nil => simp
  | cons a l ih =>
      cases l with
      | nil =>
          simp only [List.getLast?_eq_getLast _ (List.cons_ne_nil a []),
            List.getLast_singleton, Option.some.injEq] at hl
          simp [← hl]
      | cons b l' =>
          rw [List.getLast?_cons_cons] at hl
          rcases List.pairwise_cons.mp hs with ⟨ha, hs'⟩
          intro p hp
          rcases List.mem_cons.mp hp with rfl | hp'
          · have hne : b :: l' ≠ [] := List.cons_ne_nil b l'
            rw [List.getLast?_eq_getLast _ hne, Option.some.injEq] at hl
            have hmem : lastP ∈ b :: l' := hl ▸ List.getLast_mem hne
            exact le_of_lt (ha lastP hmem)
          · exact ih hs' hl p hp'

/-- Claim C5 counterexample: on the strictly sorted three-point series
(2010, 1), (2015, 0.5), (2020, 0) with target 2025, the last observed
value is 0 and the target lies past the last year, so the rate division
`projected_value / current_value` raises `ZeroDivisionError`, the handler
at utils.py line 303 drops the sector, and no `ProjectionResult` with the
claimed fields exists — refuting the claim's universal quantification over
every series with at least 3 points. -/
theorem sector_trend_ols_projection_counterexample :
    sector_trend_project [((2010 : ℤ), (1 : ℝ)), (2015, 0.5), (2020, 0)] 2025 = none := by
  have hle : ([((2010 : ℤ), (1 : ℝ)), (2015, 0.5), (2020, 0)]).Pairwise
      fun a b => (decide (a.1 ≤ b.1)) = true := by
    norm_num [List.pairwise_cons]
  unfold sector_trend_project
  rw [if_pos (by norm_num), List.mergeSort_of_sorted hle]
  norm_num

/-- Claim C5 as amended: on a (strictly year-sorted) series with at least
three points, except in the dropped-sector case where the value observed
at the highest year is 0 while `target_year` exceeds that year,
`sector_trend_project` fits the ordinary least-squares line with the
closed-form slope and intercept sums, returns
`projected_value = slope * target_year + intercept`, and returns as
`current_value` the observed value of the point with the highest year (the
last one), not a fitted value; on the three collinear points
(2010, 10), (2015, 12), (2020, 14) with target 2025 it yields projected
value 16 and current value 14. -/
theorem sector_trend_ols_projection (l : List (ℤ × ℝ)) (t : ℤ) (lastP : ℤ × ℝ)
    (hsorted : l.Pairwise fun p q => p.1 < q.1) (hlen : 3 ≤ l.length)
    (hlast : l.getLast? = some lastP)
    (hsafe : ¬(lastP.1 < t ∧ lastP.2 = 0)) :
    (∃ r, sector_trend_project l t = some r ∧
      r.trend_slope = ols_slope l ∧
      r.projected_value = ols_slope l * (t : ℝ) + ols_intercept l ∧
      r.current_value = lastP.2 ∧
      ∀ p ∈ l, p.1 ≤ lastP.1) ∧
    (∃ r, sector_trend_project [((2010 : ℤ), (10 : ℝ)), (2015, 12), (2020, 14)] 2025
        = some r ∧
      r.projected_value = 16 ∧ r.current_value = 14) := by
  have hyears : (l.map fun p => p.1).getLastD 0 = lastP.1 := by
    rw [List.getLastD_eq_getLast?, List.getLast?_map, hlast]
    rfl
  have hvalues : (l.map fun p => p.2).getLastD 0 = lastP.2 := by
    rw [List.getLastD_eq_getLast?, List.getLast?_map, hlast]
    rfl
  have hsafe' : ¬(0 < t - (l.map fun p => p.1).getLastD 0
      ∧ (l.map fun p => p.2).getLastD 0 = 0) := by
    rw [hyears, hvalues]
    intro h
    exact hsafe ⟨by omega, h.2⟩
  constructor
  · refine ⟨_, sector_trend_project_of_sorted l t hsorted hlen hsafe', rfl, rfl, ?_, ?_⟩
    · exact hvalues
    · exact le_getLast_of_pairwise l lastP hsorted hlast
  · have hs3 : ([((2010 : ℤ), (10 : ℝ)), (2015, 12), (2020, 14)]).Pairwise
        fun p q => p.1 < q.1 := by
      norm_num [List.pairwise_cons]
    refine ⟨_, sector_trend_project_of_sorted _ 2025 hs3 (by norm_num) (by norm_num), ?_, ?_⟩
    · show ols_slope _ * ((2025 : ℤ) : ℝ) + ols_intercept _ = 16
      norm_num [ols_slope, ols_intercept]
    · show (List.map (fun p => p.2) [((2010 : ℤ), (10 : ℝ)), (2015, 12), (2020, 14)]).getLastD 0
          = 14
      norm_num

/-- Witness for the amended claim C5 on the collinear example series
(whose last value 14 is nonzero). -/
theorem sector_trend_ols_projection_witness :
    ∃ r, sector_trend_project [((2010 : ℤ), (10 : ℝ)), (2015, 12), (2020, 14)] 2025 = some r ∧
      r.projected_value = 16 ∧ r.current_value = 14 :=
  (sector_trend_ols_projection [((2010 : ℤ), (10 : ℝ)), (2015, 12), (2020, 14)] 2025 (2020, 14)
    (by norm_num [List.pairwise_cons]) (by norm_num) (by rfl) (by norm_num)).2

/-- Claim C6: with fewer than three historical points the sector trend
projector produces no `ProjectionResult` — the reported insufficient-data
condition, not a crash. -/
theorem sector_trend_insufficient_data (l : List (ℤ × ℝ)) (t : ℤ)
    (h : l.length < 3) : sector_trend_project l t = none := by
  unfold sector_trend_project
  rw [if_neg (by omega)]

/-- Witness for claim C6 on a two-point series. -/
theorem sector_trend_insufficient_data_witness :
    sector_trend_project [((2020 : ℤ), (55 : ℝ)), (2021, 56)] 2047 = none :=
  sector_trend_insufficient_data _ _ (by norm_num)

/-- Arithmetic core of the implied compound rate: compounding
`current_value` at `((pv / cv) ^ (1 / d) - 1) * 100` percent for `d`
periods reproduces `pv`. -/
theorem compound_rate_recovers (cv pv : ℝ) (d : ℤ) (hd : 0 < d)
    (hcv : 0 < cv) (hpv : 0 < pv) :
    cv * (1 + ((pv / cv) ^ ((1 : ℝ) / ((d : ℤ) : ℝ)) - 1) * 100 / 100) ^ d.toNat = pv := by
  have hx : (0 : ℝ) < pv / cv := div_pos hpv hcv
  have h1 : 1 + ((pv / cv) ^ ((1 : ℝ) / ((d : ℤ) : ℝ)) - 1) * 100 / 100
      = (pv / cv) ^ ((1 : ℝ) / ((d : ℤ) : ℝ)) := by ring
  have hdR : ((d : ℤ) : ℝ) ≠ 0 := by
    exact_mod_cast ne_of_gt hd
  have h2 : ((d.toNat : ℕ) : ℝ) = ((d : ℤ) : ℝ) := by
    rw [← Int.cast_natCast, Int.toNat_of_nonneg (le_of_lt hd)]
  rw [h1, ← Real.rpow_natCast ((pv / cv) ^ ((1 : ℝ) / ((d : ℤ) : ℝ))) d.toNat,
    ← Real.rpow_mul (le_of_lt hx), h2, one_div, inv_mul_cancel₀ hdR,
    Real.rpow_one, mul_div_cancel₀ _ (ne_of_gt hcv)]

/-- Claim C7 counterexample: on the strictly sorted three-point series
(2010, 2), (2015, 1), (2020, 0) with target 2047 past the last observed
year, the rate division divides by the last value 0, the program raises
`ZeroDivisionError` (caught at utils.py line 303) and produces no record
— so no `annual_growth_rate` equal to the claimed formula exists for this
series. -/
theorem sector_trend_growth_rate_counterexample :
    sector_trend_project [((2010 : ℤ), (2 : ℝ)), (2015, 1), (2020, 0)] 2047 = none := by
  have hle : ([((2010 : ℤ), (2 : ℝ)), (2015, 1), (2020, 0)]).Pairwise
      fun a b => (decide (a.1 ≤ b.1)) = true := by
    norm_num [List.pairwise_cons]
  unfold sector_trend_project
  rw [if_pos (by norm_num), List.mergeSort_of_sorted hle]
  norm_num

/-- Claim C7 as amended: on a (strictly year-sorted) series with at least
three points, whenever the projector produces a record at all — i.e.
outside the dropped-sector case where the last observed value is 0 while
`target_year` exceeds the last observed year — its `annual_growth_rate`
equals
`((projected_value / current_value) ^ (1 / (target_year - last_year)) - 1) * 100`
whenever `target_year` exceeds the last observed year, is exactly 0 when
`target_year` equals the last observed year, and (when the involved values
are positive) is the compound rate solving
`current_value * (1 + r / 100) ^ (target_year - last_year) = projected_value`. -/
theorem sector_trend_growth_rate (l : List (ℤ × ℝ)) (t : ℤ) (lastP : ℤ × ℝ)
    (hsorted : l.Pairwise fun p q => p.1 < q.1) (hlen : 3 ≤ l.length)
    (hlast : l.getLast? = some lastP)
    (hsafe : ¬(lastP.1 < t ∧ lastP.2 = 0)) :
    ∃ r, sector_trend_project l t = some r ∧
      (lastP.1 < t → r.annual_growth_rate =
        ((r.projected_value / r.current_value)
          ^ ((1 : ℝ) / ((t - lastP.1 : ℤ) : ℝ)) - 1) * 100) ∧
      (t = lastP.1 → r.annual_growth_rate = 0) ∧
      (lastP.1 < t → 0 < r.current_value → 0 < r.projected_value →
        r.current_value * (1 + r.annual_growth_rate / 100) ^ (t - lastP.1).toNat
          = r.projected_value) := by
  have hyears : (l.map fun p => p.1).getLastD 0 = lastP.1 := by
    rw [List.getLastD_eq_getLast?, List.getLast?_map, hlast]
    rfl
  have hvalues : (l.map fun p => p.2).getLastD 0 = lastP.2 := by
    rw [List.getLastD_eq_getLast?, List.getLast?_map, hlast]
    rfl
  have hsafe' : ¬(0 < t - (l.map fun p => p.1).getLastD 0
      ∧ (l.map fun p => p.2).getLastD 0 = 0) := by
    rw [hyears, hvalues]
    intro h
    exact hsafe ⟨by omega, h.2⟩
  refine ⟨_, sector_trend_project_of_sorted l t hsorted hlen hsafe', ?_, ?_, ?_⟩
  · intro hlt
    show (if 0 < t - (l.map fun p => p.1).getLastD 0 then _ else 0) = _
    rw [hyears, if_pos (by omega)]
  · intro heq
    show (if 0 < t - (l.map fun p => p.1).getLastD 0 then _ else 0) = 0
    rw [hyears, if_neg (by omega)]
  · intro hlt hcv hpv
    show _ * (1 + (if 0 < t - (l.map fun p => p.1).getLastD 0 then _ else 0) / 100)
        ^ (t - lastP.1).toNat = _
    rw [hyears, if_pos (by omega)]
    exact compound_rate_recovers _ _ (t - lastP.1) (by omega) hcv hpv

/-- Witness for the amended claim C7 on the collinear example series with
target 2025 (last value 14 is nonzero). -/
theorem sector_trend_growth_rate_witness :
    ∃ r, sector_trend_project [((2010 : ℤ), (10 : ℝ)), (2015, 12), (2020, 14)] 2025 = some r ∧
      r.annual_growth_rate =
        ((r.projected_value / r.current_value)
          ^ ((1 : ℝ) / (((2025 : ℤ) - 2020 : ℤ) : ℝ)) - 1) * 100 := by
  obtain ⟨r, hr, h1, _, _⟩ :=
    sector_trend_growth_rate [((2010 : ℤ), (10 : ℝ)), (2015, 12), (2020, 14)] 2025 (2020, 14)
      (by norm_num [List.pairwise_cons]) (by norm_num) (by rfl) (by norm_num)
  exact ⟨r, hr, h1 (by norm_num)⟩

/-- Embedding of the normalization step of `fetch_country_sector_gdp`
(utils.py lines 398-408) on the sector-name-to-percentage map, modelled as
an association list (the surrounding HTTP fetching, the per-sector `year`
fields and the `_year` metadata entry the code attaches — which is not a
sector share — are outside the share-set semantics).  With at least two
fetched sectors and a positive total, every percentage is rescaled by
`percentage / total * 100`; otherwise the function returns `None`. -/
noncomputable def normalize_country_sector_gdp (shares : List (String × ℝ)) :
    Option (List (String × ℝ)) :=
  if 2 ≤ shares.length then
    let total := (shares.map fun p => p.2).sum
    if 0 < total then
      some (shares.map fun p => (p.1, p.2 / total * 100))
    else none
  else none

/-- Distributing a rescaling `v / S * c` over a list sum. -/
theorem sum_map_div_mul (l : List (String × ℝ)) (S c : ℝ) :
    (l.map fun p => p.2 / S * c).sum = (l.map fun p => p.2).sum / S * c := by
  induction l with
  | nil => simp
  | cons a l ih =>
      simp only [List.map_cons, List.sum_cons, ih]
      ring

/-- Claim C8: with at least two entries and a positive total, the
sector-share normalizer rescales every entry by `share / total * 100`,
keeps the keys, and the rescaled values sum to exactly 100; with a zero
total or fewer than two entries it returns `none` instead of dividing by
zero. -/
theorem normalize_country_sector_gdp_spec (shares : List (String × ℝ)) :
    (2 ≤ shares.length → 0 < (shares.map fun p => p.2).sum →
      normalize_country_sector_gdp shares =
        some (shares.map fun p => (p.1, p.2 / (shares.map fun q => q.2).sum * 100)) ∧
      (shares.map fun p => (p.1, p.2 / (shares.map fun q => q.2).sum * 100)).map Prod.fst
        = shares.map Prod.fst ∧
      ((shares.map fun p => (p.1, p.2 / (shares.map fun q => q.2).sum * 100)).map
        fun p => p.2).sum = 100) ∧
    ((shares.map fun p => p.2).sum = 0 → normalize_country_sector_gdp shares = none) ∧
    (shares.length < 2 → normalize_country_sector_gdp shares = none) := by
  refine ⟨fun h2 hpos => ⟨?_, ?_, ?_⟩, fun hzero => ?_, fun hlt => ?_⟩
  · unfold normalize_country_sector_gdp
    rw [if_pos h2]
    simp only []
    rw [if_pos hpos]
  · simp only [List.map_map]
    congr 1
  · have hmm : ((shares.map fun p =>
        (p.1, p.2 / (shares.map fun q => q.2).sum * 100)).map fun p => p.2)
          = shares.map fun p => p.2 / (shares.map fun q => q.2).sum * 100 := by
      simp
    rw [hmm, sum_map_div_mul, div_self (ne_of_gt hpos)]
    norm_num
  · unfold normalize_country_sector_gdp
    by_cases h2 : 2 ≤ shares.length
    · rw [if_pos h2]
      simp only []
      rw [if_neg (by rw [hzero]; exact lt_irrefl 0)]
    · rw [if_neg h2]
  · unfold normalize_country_sector_gdp
    rw [if_neg (by omega)]

/-- Witness for claim C8 on the two-entry set with shares 1 and 1: the
normalized values sum to 100. -/
theorem normalize_country_sector_gdp_spec_witness :
    normalize_country_sector_gdp [("a", (1 : ℝ)), ("b", 1)] =
      some ([("a", (1 : ℝ)), ("b", 1)].map fun p =>
        (p.1, p.2 / (([("a", (1 : ℝ)), ("b", 1)]).map fun q => q.2).sum * 100)) ∧
    (([("a", (1 : ℝ)), ("b", 1)].map fun p =>
        (p.1, p.2 / (([("a", (1 : ℝ)), ("b", 1)]).map fun q => q.2).sum * 100)).map
      fun p => p.2).sum = 100 := by
  obtain ⟨h1, _, h3⟩ := (normalize_country_sector_gdp_spec [("a", (1 : ℝ)), ("b", 1)]).1
    (by norm_num) (by norm_num)
  exact ⟨h1, h3⟩
